import Mathlib

/-!
Verification of the hook-to-host call bridge in
`crates/node_binding/src/plugins/mod.rs`: the `JsHooksAdapter` structure,
its constructor `from_js_hooks`, and the five plugin-hook operations
(`compilation`, `this_compilation`, `process_assets`, `emit`, `after_emit`).

The embedding models the napi `ThreadsafeFunction` (the "Call Channel") as
a record of the observable parameters the source passes to it (which hook
callback it is bound to and its queue size), and models the effectful
construction and hook invocation as trace-producing functions over an
environment that decides the outcome of each external call
(channel creation, `unref`, enqueueing, awaiting the host).
-/

namespace Rspack

/-- The five lifecycle hooks bridged by `JsHooksAdapter`. -/
inductive Hook where
  | process_assets
  | emit
  | after_emit
  | this_compilation
  | compilation
deriving DecidableEq, Repr

/-- Observable parameters of one threadsafe function (Call Channel) as
created by `from_js_hooks`: the hook callback it binds to and the
`queue_size` argument passed to `ThreadsafeFunction::create`. -/
structure ThreadsafeFunction where
  hook : Hook
  queueSize : Nat
deriving DecidableEq, Repr

/-- The adapter record built by `from_js_hooks`, mirroring the Rust struct
`JsHooksAdapter` field for field. -/
structure JsHooksAdapter where
  compilation_tsfn : ThreadsafeFunction
  this_compilation_tsfn : ThreadsafeFunction
  process_assets_tsfn : ThreadsafeFunction
  emit_tsfn : ThreadsafeFunction
  after_emit_tsfn : ThreadsafeFunction
deriving DecidableEq, Repr

/-- Events observable during `from_js_hooks`: creation of a channel (with
the queue size passed to `create`) and `unref` of a channel. -/
inductive Event where
  | create (h : Hook) (queueSize : Nat)
  | unref (h : Hook)
deriving DecidableEq, Repr

/-- Environment for `from_js_hooks`: whether `ThreadsafeFunction::create`
and `unref` succeed for each hook's channel (in the source these are
fallible napi calls, each followed by `?`). -/
structure CreateEnv where
  createOk : Hook → Bool
  unrefOk : Hook → Bool

/-- One `ThreadsafeFunction::create(env.raw(), cb, 0, handler)?` step of
`from_js_hooks`: on success it extends the event trace and yields the new
channel; on failure the surrounding function returns the error (`?`). -/
def createStep (env : CreateEnv) (h : Hook) (tr : List Event) :
    Except (List Event) (List Event × ThreadsafeFunction) :=
  if env.createOk h then Except.ok (tr ++ [Event.create h 0], ⟨h, 0⟩)
  else Except.error tr

/-- One `tsfn.unref(&env)?` step of `from_js_hooks`. -/
def unrefStep (env : CreateEnv) (h : Hook) (tr : List Event) :
    Except (List Event) (List Event) :=
  if env.unrefOk h then Except.ok (tr ++ [Event.unref h])
  else Except.error tr

/-- Embedding of `JsHooksAdapter::from_js_hooks`: creates the five
threadsafe functions in the source's textual order (process_assets, emit,
after_emit, this_compilation, compilation), then calls `unref` on each in
the source's order (process_assets, emit, after_emit, compilation,
this_compilation), and finally builds the adapter record.  Each fallible
step is a `match` mirroring the Rust `?` operator.  The result carries the
trace of events that happened before returning. -/
def from_js_hooks (env : CreateEnv) :
    Except (List Event) (List Event × JsHooksAdapter) :=
  match createStep env Hook.process_assets [] with
  | Except.error t => Except.error t
  | Except.ok (tr, process_assets_tsfn) =>
  match createStep env Hook.emit tr with
  | Except.error t => Except.error t
  | Except.ok (tr, emit_tsfn) =>
  match createStep env Hook.after_emit tr with
  | Except.error t => Except.error t
  | Except.ok (tr, after_emit_tsfn) =>
  match createStep env Hook.this_compilation tr with
  | Except.error t => Except.error t
  | Except.ok (tr, this_compilation_tsfn) =>
  match createStep env Hook.compilation tr with
  | Except.error t => Except.error t
  | Except.ok (tr, compilation_tsfn) =>
  match unrefStep env Hook.process_assets tr with
  | Except.error t => Except.error t
  | Except.ok tr =>
  match unrefStep env Hook.emit tr with
  | Except.error t => Except.error t
  | Except.ok tr =>
  match unrefStep env Hook.after_emit tr with
  | Except.error t => Except.error t
  | Except.ok tr =>
  match unrefStep env Hook.compilation tr with
  | Except.error t => Except.error t
  | Except.ok tr =>
  match unrefStep env Hook.this_compilation tr with
  | Except.error t => Except.error t
  | Except.ok tr =>
    Except.ok (tr, { process_assets_tsfn, compilation_tsfn,
                     this_compilation_tsfn, emit_tsfn, after_emit_tsfn })

/-- The order in which `from_js_hooks` creates the five channels. -/
def creationOrder : List Hook :=
  [Hook.process_assets, Hook.emit, Hook.after_emit,
   Hook.this_compilation, Hook.compilation]

/-- The full event trace of a successful `from_js_hooks` run. -/
def fullTrace : List Event :=
  [Event.create Hook.process_assets 0, Event.create Hook.emit 0,
   Event.create Hook.after_emit 0, Event.create Hook.this_compilation 0,
   Event.create Hook.compilation 0,
   Event.unref Hook.process_assets, Event.unref Hook.emit,
   Event.unref Hook.after_emit, Event.unref Hook.compilation,
   Event.unref Hook.this_compilation]

/-- The adapter value a successful `from_js_hooks` run returns. -/
def stdAdapter : JsHooksAdapter :=
  { compilation_tsfn := ⟨Hook.compilation, 0⟩,
    this_compilation_tsfn := ⟨Hook.this_compilation, 0⟩,
    process_assets_tsfn := ⟨Hook.process_assets, 0⟩,
    emit_tsfn := ⟨Hook.emit, 0⟩,
    after_emit_tsfn := ⟨Hook.after_emit, 0⟩ }

/-- An environment in which every external call succeeds. -/
def allTrueEnv : CreateEnv := ⟨fun _ => true, fun _ => true⟩

/-- The trace produced by a `from_js_hooks` run, successful or not. -/
def traceOf (r : Except (List Event) (List Event × JsHooksAdapter)) :
    List Event :=
  match r with
  | Except.error t => t
  | Except.ok (t, _) => t

/-- The hooks whose channels were created, in trace order. -/
def createdHooks (tr : List Event) : List Hook :=
  tr.filterMap fun e =>
    match e with
    | Event.create h _ => some h
    | Event.unref _ => none

theorem from_js_hooks_allTrue :
    from_js_hooks allTrueEnv = Except.ok (fullTrace, stdAdapter) := by
  rfl

/-- Inversion: a successful run returns exactly the full trace and the
standard adapter, and every external call succeeded. -/
theorem from_js_hooks_ok_inv (env : CreateEnv) (p : List Event × JsHooksAdapter)
    (hp : from_js_hooks env = Except.ok p) :
    p = (fullTrace, stdAdapter) ∧
      (∀ h, env.createOk h = true) ∧ (∀ h, env.unrefOk h = true) := by
  unfold from_js_hooks at hp
  by_cases h1 : env.createOk Hook.process_assets = true
  all_goals by_cases h2 : env.createOk Hook.emit = true
  all_goals by_cases h3 : env.createOk Hook.after_emit = true
  all_goals by_cases h4 : env.createOk Hook.this_compilation = true
  all_goals by_cases h5 : env.createOk Hook.compilation = true
  all_goals by_cases h6 : env.unrefOk Hook.process_assets = true
  all_goals by_cases h7 : env.unrefOk Hook.emit = true
  all_goals by_cases h8 : env.unrefOk Hook.after_emit = true
  all_goals by_cases h9 : env.unrefOk Hook.compilation = true
  all_goals by_cases h10 : env.unrefOk Hook.this_compilation = true
  all_goals simp [createStep, unrefStep, h1, h2, h3, h4, h5, h6, h7, h8, h9, h10] at hp
  · subst hp
    refine ⟨rfl, fun h => ?_, fun h => ?_⟩ <;> cases h <;> assumption

/-- Whatever happens, the events of a `from_js_hooks` run are a prefix of
the full successful trace: execution proceeds through the same fixed
sequence of external calls and stops at the first failure. -/
theorem traceOf_prefix_full (env : CreateEnv) :
    traceOf (from_js_hooks env) <+: fullTrace := by
  unfold from_js_hooks
  by_cases h1 : env.createOk Hook.process_assets = true
  all_goals by_cases h2 : env.createOk Hook.emit = true
  all_goals by_cases h3 : env.createOk Hook.after_emit = true
  all_goals by_cases h4 : env.createOk Hook.this_compilation = true
  all_goals by_cases h5 : env.createOk Hook.compilation = true
  all_goals by_cases h6 : env.unrefOk Hook.process_assets = true
  all_goals by_cases h7 : env.unrefOk Hook.emit = true
  all_goals by_cases h8 : env.unrefOk Hook.after_emit = true
  all_goals by_cases h9 : env.unrefOk Hook.compilation = true
  all_goals by_cases h10 : env.unrefOk Hook.this_compilation = true
  all_goals simp [createStep, unrefStep, h1, h2, h3, h4, h5, h6, h7,
    h8, h9, h10, traceOf]
  all_goals decide

/-- Does every creation event have its channel's `unref` as the
immediately following event in the trace? -/
def unrefImmediatelyAfter (tr : List Event) : Bool :=
  (List.range tr.length).all fun i =>
    match tr[i]? with
    | some (Event.create h _) => decide (tr[i + 1]? = some (Event.unref h))
    | _ => true

/-- Does every creation event precede every `unref` event in the trace? -/
def unrefsAfterCreates (tr : List Event) : Bool :=
  (List.range tr.length).all fun i =>
    (List.range tr.length).all fun j =>
      match tr[i]?, tr[j]? with
      | some (Event.create _ _), some (Event.unref _) => decide (i < j)
      | _, _ => true

/-- Is `unref` called on each of the five channels somewhere in the trace? -/
def allUnreffed (tr : List Event) : Bool :=
  creationOrder.all fun h => decide (Event.unref h ∈ tr)

/-- Does a creation event carry queue size zero? (`unref` events pass.) -/
def createQueueZero : Event → Bool
  | Event.create _ q => q == 0
  | Event.unref _ => true

/-- C1: `from_js_hooks` creates the five channels in exactly the order
process_assets, emit, after_emit, this_compilation, compilation; in
particular this_compilation's channel is created before compilation's. -/
theorem from_js_hooks_creation_order (env : CreateEnv) (tr : List Event)
    (a : JsHooksAdapter) (hp : from_js_hooks env = Except.ok (tr, a)) :
    createdHooks tr = creationOrder ∧
      (createdHooks tr).indexOf Hook.this_compilation <
        (createdHooks tr).indexOf Hook.compilation := by
  obtain ⟨heq, -, -⟩ := from_js_hooks_ok_inv env (tr, a) hp
  rw [Prod.ext_iff] at heq
  obtain ⟨htr, -⟩ := heq
  subst htr
  exact ⟨by decide, by decide⟩

/-- Witness for C1 at the all-successful environment. -/
theorem from_js_hooks_creation_order_witness :
    createdHooks fullTrace = creationOrder ∧
      (createdHooks fullTrace).indexOf Hook.this_compilation <
        (createdHooks fullTrace).indexOf Hook.compilation :=
  from_js_hooks_creation_order allTrueEnv fullTrace stdAdapter rfl

/-- C4: if any channel creation fails, the whole construction returns an
error and no adapter value is produced. -/
theorem from_js_hooks_fails_whole (env : CreateEnv) (h : Hook)
    (hf : env.createOk h = false) :
    (from_js_hooks env).isOk = false := by
  cases hres : from_js_hooks env with
  | error t => rfl
  | ok p =>
    obtain ⟨-, hall, -⟩ := from_js_hooks_ok_inv env p hres
    rw [hall h] at hf
    cases hf

/-- An environment in which creating the emit channel fails. -/
def failEmitEnv : CreateEnv :=
  ⟨fun h => match h with | Hook.emit => false | _ => true, fun _ => true⟩

/-- Witness for C4: the emit channel's creation fails. -/
theorem from_js_hooks_fails_whole_witness :
    (from_js_hooks failEmitEnv).isOk = false :=
  from_js_hooks_fails_whole failEmitEnv Hook.emit rfl

/-- C5 counterexample: on the all-successful construction, the produced
trace does not have each channel's `unref` immediately after its creation
(the source calls `unref` on all five channels only after all five have
been created). -/
theorem unref_not_immediate :
    from_js_hooks allTrueEnv = Except.ok (fullTrace, stdAdapter) ∧
      unrefImmediatelyAfter fullTrace = false :=
  ⟨rfl, by decide⟩

/-- C5 amended: in every successful construction, `unref` is called on
every one of the five channels, but only after all five channels have been
created: every creation event precedes every `unref` event. -/
theorem unref_after_all_creates (env : CreateEnv) (tr : List Event)
    (a : JsHooksAdapter) (hp : from_js_hooks env = Except.ok (tr, a)) :
    allUnreffed tr = true ∧ unrefsAfterCreates tr = true := by
  obtain ⟨heq, -, -⟩ := from_js_hooks_ok_inv env (tr, a) hp
  rw [Prod.ext_iff] at heq
  obtain ⟨htr, -⟩ := heq
  subst htr
  exact ⟨by decide, by decide⟩

/-- Witness for the amended C5 at the all-successful environment. -/
theorem unref_after_all_creates_witness :
    allUnreffed fullTrace = true ∧ unrefsAfterCreates fullTrace = true :=
  unref_after_all_creates allTrueEnv fullTrace stdAdapter rfl

/-- C8: every channel is created with queue size 0: every creation event
in any run's trace carries queue size 0, and all five channels of a
successfully built adapter record queue size 0. -/
theorem queue_size_zero (env : CreateEnv) :
    (traceOf (from_js_hooks env)).all createQueueZero = true ∧
      ∀ tr a, from_js_hooks env = Except.ok (tr, a) →
        a.process_assets_tsfn.queueSize = 0 ∧ a.emit_tsfn.queueSize = 0 ∧
        a.after_emit_tsfn.queueSize = 0 ∧
        a.this_compilation_tsfn.queueSize = 0 ∧
        a.compilation_tsfn.queueSize = 0 := by
  constructor
  · rw [List.all_eq_true]
    intro e he
    have hsub := (traceOf_prefix_full env).subset he
    have hall : fullTrace.all createQueueZero = true := by decide
    exact List.all_eq_true.mp hall e hsub
  · intro tr a hp
    obtain ⟨heq, -, -⟩ := from_js_hooks_ok_inv env (tr, a) hp
    rw [Prod.ext_iff] at heq
    obtain ⟨-, ha⟩ := heq
    subst ha
    exact ⟨rfl, rfl, rfl, rfl, rfl⟩

/-- Witness for C8 at the all-successful environment. -/
theorem queue_size_zero_witness :
    (traceOf (from_js_hooks allTrueEnv)).all createQueueZero = true ∧
      (stdAdapter.process_assets_tsfn.queueSize = 0 ∧
        stdAdapter.emit_tsfn.queueSize = 0 ∧
        stdAdapter.after_emit_tsfn.queueSize = 0 ∧
        stdAdapter.this_compilation_tsfn.queueSize = 0 ∧
        stdAdapter.compilation_tsfn.queueSize = 0) :=
  ⟨(queue_size_zero allTrueEnv).1,
   (queue_size_zero allTrueEnv).2 fullTrace stdAdapter rfl⟩

/-- The call mode passed to `ThreadsafeFunction::call`; the source only
ever passes `NonBlocking`. -/
inductive ThreadsafeFunctionCallMode where
  | NonBlocking
  | Blocking
deriving DecidableEq, Repr

/-- The value sent across the thread boundary by a hook operation: unit,
or the `JsCompilation` handle wrapping the mutable compilation state. -/
inductive SentVal where
  | unitVal
  | compilationHandle
deriving DecidableEq, Repr

/-- The pipeline error type as observable here: `Error::InternalError`
(built by the `map_err` closures with the hook-specific message) or a napi
error converted by `?` with its message carried through unchanged. -/
inductive Error where
  | internalError (msg : String)
  | napiError (msg : String)
deriving DecidableEq, Repr

/-- One `ThreadsafeFunction::call` as issued by a hook operation: the
channel it was issued on, the value sent, and the call mode passed. -/
structure CallEvent where
  tsfn : ThreadsafeFunction
  sent : SentVal
  mode : ThreadsafeFunctionCallMode
deriving DecidableEq, Repr

/-- Environment deciding the outcome of a hook operation's external steps:
whether `call(...)` succeeds at the enqueue point (its error message if
not), the host-side outcome the awaited future resolves to, and the
mutation the host applies through a `JsCompilation` handle while the
callback runs.  `hostMutate` is modelled from the spec: the host "may
read/mutate it for the duration of the call only"; the host side of the
channel is not part of this source file. -/
structure CallEnv (σ : Type) where
  enqueue : ThreadsafeFunction → SentVal → ThreadsafeFunctionCallMode →
    Except String Unit
  awaitResult : ThreadsafeFunction → Except String Unit
  hostMutate : σ → σ

/-- Embedding of the `compilation` hook method: wraps the mutable
compilation state as a handle, enqueues it on `compilation_tsfn` in
non-blocking mode (a failure there propagates via `?` unchanged), awaits
the future, and wraps an await failure as an internal error with the
message prefix "Failed to compilation: ".  Returns the operation result,
the state after the call, and the calls issued. -/
def JsHooksAdapter.compilation (a : JsHooksAdapter) (env : CallEnv σ)
    (st : σ) : Except Error Unit × σ × List CallEvent :=
  (match env.enqueue a.compilation_tsfn SentVal.compilationHandle
      ThreadsafeFunctionCallMode.NonBlocking with
   | Except.error e => Except.error (Error.napiError e)
   | Except.ok _ =>
     match env.awaitResult a.compilation_tsfn with
     | Except.error err =>
       Except.error (Error.internalError ("Failed to compilation: " ++ err))
     | Except.ok _ => Except.ok (),
   match env.enqueue a.compilation_tsfn SentVal.compilationHandle
      ThreadsafeFunctionCallMode.NonBlocking with
   | Except.error _ => st
   | Except.ok _ => env.hostMutate st,
   [⟨a.compilation_tsfn, SentVal.compilationHandle,
     ThreadsafeFunctionCallMode.NonBlocking⟩])

/-- Embedding of the `this_compilation` hook method; identical in shape to
`compilation` but on `this_compilation_tsfn`, with message prefix
"Failed to this_compilation: ". -/
def JsHooksAdapter.this_compilation (a : JsHooksAdapter) (env : CallEnv σ)
    (st : σ) : Except Error Unit × σ × List CallEvent :=
  (match env.enqueue a.this_compilation_tsfn SentVal.compilationHandle
      ThreadsafeFunctionCallMode.NonBlocking with
   | Except.error e => Except.error (Error.napiError e)
   | Except.ok _ =>
     match env.awaitResult a.this_compilation_tsfn with
     | Except.error err =>
       Except.error
         (Error.internalError ("Failed to this_compilation: " ++ err))
     | Except.ok _ => Except.ok (),
   match env.enqueue a.this_compilation_tsfn SentVal.compilationHandle
      ThreadsafeFunctionCallMode.NonBlocking with
   | Except.error _ => st
   | Except.ok _ => env.hostMutate st,
   [⟨a.this_compilation_tsfn, SentVal.compilationHandle,
     ThreadsafeFunctionCallMode.NonBlocking⟩])

/-- Embedding of the `process_assets` hook method: sends unit (assets are
pulled lazily on the host side), enqueues on `process_assets_tsfn` in
non-blocking mode, and wraps an await failure with the message prefix
"Failed to call process assets: ". -/
def JsHooksAdapter.process_assets (a : JsHooksAdapter) (env : CallEnv σ)
    (st : σ) : Except Error Unit × σ × List CallEvent :=
  (match env.enqueue a.process_assets_tsfn SentVal.unitVal
      ThreadsafeFunctionCallMode.NonBlocking with
   | Except.error e => Except.error (Error.napiError e)
   | Except.ok _ =>
     match env.awaitResult a.process_assets_tsfn with
     | Except.error err =>
       Except.error
         (Error.internalError ("Failed to call process assets: " ++ err))
     | Except.ok _ => Except.ok (),
   st,
   [⟨a.process_assets_tsfn, SentVal.unitVal,
     ThreadsafeFunctionCallMode.NonBlocking⟩])

/-- Embedding of the `emit` hook method: ignores the compilation state it
receives, sends unit on `emit_tsfn` in non-blocking mode, and wraps an
await failure with the message prefix "Failed to call emit: ". -/
def JsHooksAdapter.emit (a : JsHooksAdapter) (env : CallEnv σ)
    (st : σ) : Except Error Unit × σ × List CallEvent :=
  (match env.enqueue a.emit_tsfn SentVal.unitVal
      ThreadsafeFunctionCallMode.NonBlocking with
   | Except.error e => Except.error (Error.napiError e)
   | Except.ok _ =>
     match env.awaitResult a.emit_tsfn with
     | Except.error err =>
       Except.error (Error.internalError ("Failed to call emit: " ++ err))
     | Except.ok _ => Except.ok (),
   st,
   [⟨a.emit_tsfn, SentVal.unitVal, ThreadsafeFunctionCallMode.NonBlocking⟩])

/-- Embedding of the `after_emit` hook method: ignores the compilation
state it receives, sends unit on `after_emit_tsfn` in non-blocking mode,
and wraps an await failure with the message prefix
"Failed to call after emit: ". -/
def JsHooksAdapter.after_emit (a : JsHooksAdapter) (env : CallEnv σ)
    (st : σ) : Except Error Unit × σ × List CallEvent :=
  (match env.enqueue a.after_emit_tsfn SentVal.unitVal
      ThreadsafeFunctionCallMode.NonBlocking with
   | Except.error e => Except.error (Error.napiError e)
   | Except.ok _ =>
     match env.awaitResult a.after_emit_tsfn with
     | Except.error err =>
       Except.error
         (Error.internalError ("Failed to call after emit: " ++ err))
     | Except.ok _ => Except.ok (),
   st,
   [⟨a.after_emit_tsfn, SentVal.unitVal,
     ThreadsafeFunctionCallMode.NonBlocking⟩])

/-- Dispatch a hook to the corresponding adapter method. -/
def hookOp (h : Hook) (a : JsHooksAdapter) (env : CallEnv σ) (st : σ) :
    Except Error Unit × σ × List CallEvent :=
  match h with
  | Hook.process_assets => a.process_assets env st
  | Hook.emit => a.emit env st
  | Hook.after_emit => a.after_emit env st
  | Hook.this_compilation => a.this_compilation env st
  | Hook.compilation => a.compilation env st

/-- The channel a hook operation uses. -/
def channelOf (a : JsHooksAdapter) (h : Hook) : ThreadsafeFunction :=
  match h with
  | Hook.process_assets => a.process_assets_tsfn
  | Hook.emit => a.emit_tsfn
  | Hook.after_emit => a.after_emit_tsfn
  | Hook.this_compilation => a.this_compilation_tsfn
  | Hook.compilation => a.compilation_tsfn

/-- The value a hook operation sends across the thread boundary. -/
def sentOf (h : Hook) : SentVal :=
  match h with
  | Hook.this_compilation => SentVal.compilationHandle
  | Hook.compilation => SentVal.compilationHandle
  | _ => SentVal.unitVal

/-- The message prefix each hook's `map_err` closure prepends to the
host-reported failure text. -/
def failMessagePrefix (h : Hook) : String :=
  match h with
  | Hook.process_assets => "Failed to call process assets: "
  | Hook.emit => "Failed to call emit: "
  | Hook.after_emit => "Failed to call after emit: "
  | Hook.this_compilation => "Failed to this_compilation: "
  | Hook.compilation => "Failed to compilation: "

/-- The identifier-form name of each hook. -/
def hookName (h : Hook) : String :=
  match h with
  | Hook.process_assets => "process_assets"
  | Hook.emit => "emit"
  | Hook.after_emit => "after_emit"
  | Hook.this_compilation => "this_compilation"
  | Hook.compilation => "compilation"

/-- The form in which each hook is named inside its failure message: the
identifier itself for compilation, this_compilation and emit, and the
space-separated variant for process_assets and after_emit. -/
def messageHookTag (h : Hook) : String :=
  match h with
  | Hook.process_assets => "process assets"
  | Hook.after_emit => "after emit"
  | _ => hookName h

/-- String containment, as list-of-characters infix. -/
def strContains (s sub : String) : Prop := sub.data <:+: s.data

instance (s sub : String) : Decidable (strContains s sub) :=
  List.decidableInfix sub.data s.data

theorem strContains_append_left (s t sub : String) (h : strContains s sub) :
    strContains (s ++ t) sub := by
  unfold strContains at h ⊢
  rw [String.data_append]
  exact h.trans (List.prefix_append s.data t.data).isInfix

theorem strContains_append_right (s t : String) : strContains (s ++ t) t := by
  unfold strContains
  rw [String.data_append]
  exact (List.suffix_append s.data t.data).isInfix

/-- A host environment in which every enqueue succeeds and every awaited
callback reports the failure "disk full". -/
def diskFullEnv : CallEnv Unit :=
  { enqueue := fun _ _ _ => Except.ok (),
    awaitResult := fun _ => Except.error "disk full",
    hostMutate := id }

/-- C3 counterexample: when the host callback for `process_assets` fails
with "disk full", the operation's error message is
"Failed to call process assets: disk full", which does not contain the
hook's name `process_assets`. -/
theorem process_assets_message_lacks_hook_name :
    (stdAdapter.process_assets diskFullEnv ()).1 =
      Except.error
        (Error.internalError "Failed to call process assets: disk full") ∧
      ¬ strContains "Failed to call process assets: disk full"
        "process_assets" :=
  ⟨rfl, by decide⟩

/-- C3 amended: when the awaited host callback for a hook fails, the
operation returns an internal error whose message contains the
host-reported failure text and the hook's name — in identifier form for
compilation, this_compilation and emit, and with the underscore replaced
by a space for process_assets ("process assets") and after_emit
("after emit"). -/
theorem hook_error_message {σ : Type} (env : CallEnv σ) (a : JsHooksAdapter)
    (st : σ) (h : Hook) (err : String)
    (henq : env.enqueue (channelOf a h) (sentOf h)
      ThreadsafeFunctionCallMode.NonBlocking = Except.ok ())
    (hawait : env.awaitResult (channelOf a h) = Except.error err) :
    (hookOp h a env st).1 =
      Except.error (Error.internalError (failMessagePrefix h ++ err)) ∧
      strContains (failMessagePrefix h ++ err) (messageHookTag h) ∧
      strContains (failMessagePrefix h ++ err) err := by
  refine ⟨?_, ?_, strContains_append_right _ _⟩
  · cases h <;> simp [channelOf, sentOf] at henq hawait <;>
      simp [hookOp, JsHooksAdapter.process_assets, JsHooksAdapter.emit,
        JsHooksAdapter.after_emit, JsHooksAdapter.this_compilation,
        JsHooksAdapter.compilation, failMessagePrefix, henq, hawait]
  · exact strContains_append_left _ _ _ (by cases h <;> decide)

/-- Witness for the amended C3: the emit callback fails with "disk full". -/
theorem hook_error_message_witness :
    (hookOp Hook.emit stdAdapter diskFullEnv ()).1 =
      Except.error
        (Error.internalError (failMessagePrefix Hook.emit ++ "disk full")) ∧
      strContains (failMessagePrefix Hook.emit ++ "disk full")
        (messageHookTag Hook.emit) ∧
      strContains (failMessagePrefix Hook.emit ++ "disk full") "disk full" :=
  hook_error_message diskFullEnv stdAdapter () Hook.emit "disk full" rfl rfl

/-- C7: every hook operation passes call mode NonBlocking to its channel:
each call event it issues carries mode NonBlocking. -/
theorem call_mode_nonblocking {σ : Type} (env : CallEnv σ)
    (a : JsHooksAdapter) (st : σ) (h : Hook) :
    ((hookOp h a env st).2.2).all
      (fun ev => ev.mode == ThreadsafeFunctionCallMode.NonBlocking) = true := by
  cases h <;> rfl

/-- A host environment in which every enqueue fails with "queue closed". -/
def enqueueClosedEnv : CallEnv Unit :=
  { enqueue := fun _ _ _ => Except.error "queue closed",
    awaitResult := fun _ => Except.ok (),
    hostMutate := id }

/-- C9: if the enqueue step itself fails, the error is propagated to the
caller unchanged (as the converted napi error carrying the same message),
without the internal-error wrapping that adds the hook's name. -/
theorem enqueue_error_propagated {σ : Type} (env : CallEnv σ)
    (a : JsHooksAdapter) (st : σ) (h : Hook) (e : String)
    (henq : env.enqueue (channelOf a h) (sentOf h)
      ThreadsafeFunctionCallMode.NonBlocking = Except.error e) :
    (hookOp h a env st).1 = Except.error (Error.napiError e) := by
  cases h <;> simp [channelOf, sentOf] at henq <;>
    simp [hookOp, JsHooksAdapter.process_assets, JsHooksAdapter.emit,
      JsHooksAdapter.after_emit, JsHooksAdapter.this_compilation,
      JsHooksAdapter.compilation, henq]

/-- Witness for C9: the emit channel's enqueue fails with "queue closed". -/
theorem enqueue_error_propagated_witness :
    (hookOp Hook.emit stdAdapter enqueueClosedEnv ()).1 =
      Except.error (Error.napiError "queue closed") :=
  enqueue_error_propagated enqueueClosedEnv stdAdapter () Hook.emit
    "queue closed" rfl

/-- C10: the emit and after_emit operations neither read nor modify the
compilation state: the state they return equals the input state, their
results do not depend on the input state, and every value they send across
the thread boundary is unit. -/
theorem emit_after_emit_frame {σ : Type} (env : CallEnv σ)
    (a : JsHooksAdapter) (st st' : σ) :
    (a.emit env st).2.1 = st ∧ (a.after_emit env st).2.1 = st ∧
      ((a.emit env st).2.2).all (fun ev => ev.sent == SentVal.unitVal) = true ∧
      ((a.after_emit env st).2.2).all
        (fun ev => ev.sent == SentVal.unitVal) = true ∧
      (a.emit env st).1 = (a.emit env st').1 ∧
      (a.after_emit env st).1 = (a.after_emit env st').1 :=
  ⟨rfl, rfl, rfl, rfl, rfl, rfl⟩

/-- Position of a hook's channel in the creation order. -/
def creationIndex (created : List Hook) (h : Hook) : Nat := created.indexOf h

/-- Modelled from the spec: how the host runtime drains threadsafe-function
call queues (the napi scheduling behaviour described in the source comment
and the spec; the `threadsafe_function.rs` implementation is not part of
this source file).  For calls enqueued within one scheduling tick, the
host executes them grouped by channel in channel-creation order, FIFO
within each channel: `created` is the channel-creation order and `tick`
the native call-issue order within the tick. -/
def hostExecutionOrder (created : List Hook) (tick : List Hook) :
    List Hook :=
  created.flatMap fun c => tick.filter fun h => h == c

theorem pairwise_const {α : Type} {R : α → α → Prop} {c : α} (hc : R c c) :
    ∀ l : List α, (∀ a ∈ l, a = c) → l.Pairwise R := by
  intro l
  induction l with
  | nil => intro _; exact List.Pairwise.nil
  | cons x xs ih =>
    intro hall
    have hx : x = c := hall x (List.mem_cons_self x xs)
    subst hx
    refine List.Pairwise.cons (fun y hy => ?_)
      (ih fun a ha => hall a (List.mem_cons_of_mem _ ha))
    rw [hall y (List.mem_cons_of_mem _ hy)]
    exact hc

theorem hostExecutionOrder_pairwise (key : Hook → Nat) :
    ∀ created tick : List Hook,
      created.Pairwise (fun x y => key x ≤ key y) →
      (hostExecutionOrder created tick).Pairwise
        fun x y => key x ≤ key y := by
  intro created
  induction created with
  | nil => intro tick _; simp [hostExecutionOrder]
  | cons c cs ih =>
    intro tick hs
    rw [hostExecutionOrder, List.flatMap_cons]
    rcases List.pairwise_cons.mp hs with ⟨hc, hcs⟩
    have htail := ih tick hcs
    rw [hostExecutionOrder] at htail
    refine List.pairwise_append.mpr ⟨?_, htail, ?_⟩
    · refine pairwise_const (R := fun x y => key x ≤ key y)
        (le_refl (key c)) _ fun a ha => ?_
      exact eq_of_beq (List.mem_filter.mp ha).2
    · intro a ha b hb
      have ha' : a = c := eq_of_beq (List.mem_filter.mp ha).2
      rw [List.mem_flatMap] at hb
      obtain ⟨c', hc', hbc⟩ := hb
      have hb' : b = c' := eq_of_beq (List.mem_filter.mp hbc).2
      rw [ha', hb']
      exact hc c' hc'

/-- C2: for calls enqueued within one scheduling tick on a successfully
constructed adapter, host-side execution order follows channel
creation order (the executed sequence is sorted by creation index), not
native call-issue order; in particular, issuing compilation then
this_compilation in the same tick still executes this_compilation's
callback first. -/
theorem same_tick_execution_order (env : CreateEnv) (tr : List Event)
    (a : JsHooksAdapter) (tick : List Hook)
    (hp : from_js_hooks env = Except.ok (tr, a)) :
    (hostExecutionOrder (createdHooks tr) tick).Pairwise
      (fun x y => creationIndex (createdHooks tr) x ≤
        creationIndex (createdHooks tr) y) ∧
      hostExecutionOrder (createdHooks tr)
        [Hook.compilation, Hook.this_compilation] =
        [Hook.this_compilation, Hook.compilation] := by
  obtain ⟨heq, -, -⟩ := from_js_hooks_ok_inv env (tr, a) hp
  rw [Prod.ext_iff] at heq
  obtain ⟨htr, -⟩ := heq
  subst htr
  have hck : createdHooks fullTrace = creationOrder := by decide
  rw [hck]
  constructor
  · exact hostExecutionOrder_pairwise (creationIndex creationOrder)
      creationOrder tick (by decide)
  · decide

/-- Witness for C2: compilation then this_compilation issued in one tick
on the adapter built by the all-successful construction. -/
theorem same_tick_execution_order_witness :
    hostExecutionOrder (createdHooks fullTrace)
      [Hook.compilation, Hook.this_compilation] =
      [Hook.this_compilation, Hook.compilation] :=
  (same_tick_execution_order allTrueEnv fullTrace stdAdapter
    [Hook.compilation, Hook.this_compilation] rfl).2

/-- The host's return value as seen by a channel's result handler: either
the well-formed unit-convertible value or a malformed value with a
description of why conversion fails. -/
inductive HostReturn where
  | unitVal
  | malformed (desc : String)
deriving DecidableEq, Repr

/-- Failures a channel's result handler can report: the host callback
itself failed, or its return value failed to convert. -/
inductive HandlerError where
  | callbackError (msg : String)
  | conversionError (msg : String)
deriving DecidableEq, Repr

/-- Modelled from the spec: conversion of the host's return value back to
a native result (the `resolver.resolve::<()>` step; the napi resolver is
not part of this source file): a well-formed return parses to unit, a
malformed one to a descriptive failure. -/
def convertHostReturn : HostReturn → Except String Unit
  | HostReturn.unitVal => Except.ok ()
  | HostReturn.malformed d => Except.error d

/-- The result handler installed on every channel by `from_js_hooks`:
invoke the host callback (the `call_js_function_with_napi_objects!` step,
whose failure is propagated by `?` as a callback-execution error), then
convert the returned value (`resolver.resolve::<()>`), reporting a
conversion failure distinctly.  The callback-invocation and resolver
semantics are modelled from the spec; the handler's two-step structure is
the source's. -/
def resultHandler (callOutcome : Except String HostReturn) :
    Except HandlerError Unit :=
  match callOutcome with
  | Except.error e => Except.error (HandlerError.callbackError e)
  | Except.ok r =>
    match convertHostReturn r with
    | Except.error d => Except.error (HandlerError.conversionError d)
    | Except.ok _ => Except.ok ()

/-- C6: the result handler parses the host's return into success (unit) on
a well-formed return and a descriptive failure on a malformed one (it is a
total function, so it cannot panic), and a conversion error is distinct
from a callback-execution error. -/
theorem result_handler_parse (d e : String) :
    resultHandler (Except.ok HostReturn.unitVal) = Except.ok () ∧
      resultHandler (Except.ok (HostReturn.malformed d)) =
        Except.error (HandlerError.conversionError d) ∧
      resultHandler (Except.error e) =
        Except.error (HandlerError.callbackError e) ∧
      HandlerError.conversionError d ≠ HandlerError.callbackError e :=
  ⟨rfl, rfl, rfl, fun h => HandlerError.noConfusion h⟩

end Rspack
